import Mathlib

/-
Formal model of the KansasCityFIFA-Signup application.

Shallow embedding of the signup pipeline, the form validation, the SMS
notification worker and the metrics endpoint, translated from `app.py`,
`services/sms_service.py` and `config.py`.  Python strings are modelled as
Lean strings (digit/whitespace/lowercase handling restricted to ASCII, which
covers every input the claims mention); `datetime` values are modelled as
epoch seconds (`Nat`); the SQLAlchemy session is modelled as an explicit
list of records plus a pending/committed discipline folded into each
handler; the Flask-Caching store is modelled as the list of keys currently
present (TTL expiry is not modelled: every claim is about behaviour within
the markers' lifetime).
-/

/-! ## Phone normalization (services/sms_service.py, SMSService.clean_phone_number) -/

/-- The digits of a string, in order: Python
`''.join(filter(str.isdigit, phone))` (ASCII digits). -/
def digitsOnly (s : String) : String :=
  String.mk (s.data.filter Char.isDigit)

/-- True when the first character of the string is `c`: Python
`s.startswith('1')` for the single-character prefix used in the source. -/
def firstCharIs (s : String) (c : Char) : Bool :=
  s.data.head? = some c

/-- Translation of `SMSService.clean_phone_number` (sms_service.py lines
83-107).  `raise ValueError(...)` becomes `Except.error` with the message.
Python: empty (falsy) input raises; otherwise keep the digits, prepend the
US country code when 10 digits remain, accept 11 digits starting with 1,
reject anything else; return the digits prefixed with a plus sign. -/
def clean_phone_number (phone : String) : Except String String :=
  if phone = "" then
    Except.error ("Phone number is required")
  else
    let digits_only := digitsOnly phone
    if digits_only.length = 10 then
      Except.ok ("+" ++ ("1" ++ digits_only))
    else if digits_only.length = 11 && firstCharIs digits_only ('1') then
      Except.ok ("+" ++ digits_only)
    else
      Except.error ("Invalid phone number format: " ++ phone)

/-- Modelled from the spec: section 4.4 step 1 of the specification — strip
all non-digit characters; if the remaining digit count is 10, prepend the
domestic country code digit; if 11 and already starts with that digit,
accept as-is; otherwise fail with InvalidPhoneFormat.  `none` is the
InvalidPhoneFormat outcome; used only to compare against the source-level
`clean_phone_number`. -/
def normalizePhoneSpec (s : String) : Option String :=
  let d := digitsOnly s
  if d.length = 10 then some ("1" ++ d)
  else if d.length = 11 && firstCharIs d ('1') then some d
  else none

/-- Forget the error message of an `Except` outcome. -/
def exceptToOption : Except String String → Option String
  | Except.ok a => some a
  | Except.error _ => none

/-- Python `str.strip()` (ASCII whitespace): drop leading and trailing
whitespace characters. -/
def pyStrip (s : String) : String :=
  String.mk (((s.data.dropWhile Char.isWhitespace).reverse.dropWhile Char.isWhitespace).reverse)

/-- Python `str.lower()` (ASCII letters). -/
def pyLower (s : String) : String :=
  String.mk (s.data.map Char.toLower)

/-- Split a character list at every character satisfying `p` (the pieces do
not contain the separators). -/
def splitChars (p : Char → Bool) : List Char → List (List Char)
  | [] => [[]]
  | c :: cs =>
    let r := splitChars p cs
    if p c then [] :: r
    else
      match r with
      | [] => [[c]]
      | h :: t => (c :: h) :: t

/-! ## Data model (app.py, class Signup) -/

/-- Translation of the `signups` row (app.py lines 142-171).  `DateTime`
columns are epoch seconds. -/
structure SignupRecord where
  id : Nat
  name : String
  email : String
  phone : Option String
  zip_code : String
  events_interested : List String
  ip_address : Option String
  user_agent : Option String
  source_url : Option String
  sms_sent : Bool
  sms_sent_at : Option Nat
  sms_delivery_status : Option String
  created_at : Nat
  updated_at : Nat
deriving DecidableEq

/-- A queued notification job: the arguments of
`send_sms_async.delay(signup_data.id, signup_data.phone, signup_data.name)`
(app.py line 284). -/
structure SmsJob where
  signup_id : Nat
  phone_number : String
  name : String
deriving DecidableEq

/-- Raw form field values as submitted (strings; the multi-checkbox field is
a list of selected labels).  An absent optional phone arrives as the empty
string, matching Python falsiness of the field data. -/
structure RawForm where
  name : String
  email : String
  phone : String
  zip_code : String
  events_interested : List String
deriving DecidableEq

/-- Client metadata captured at request time: `request.remote_addr`,
`request.headers.get('User-Agent', '')`, `request.referrer`. -/
structure ClientMeta where
  ip : String
  user_agent : String
  referrer : Option String
deriving DecidableEq

/-- Shared mutable state touched by the signup handler: the database table,
its autoincrement counter, the set of keys present in the Flask-Caching
store, and the Celery queue contents. -/
structure AppState where
  db : List SignupRecord
  next_id : Nat
  cache : List String
  queue : List SmsJob
deriving DecidableEq

/-! ## Form validation (app.py, class SignupForm, lines 195-218)

The `SignupForm` declaration attaches WTForms validators to each field.
WTForms semantics (the library's documented behaviour): each field is
validated independently and all field error lists are collected;
`DataRequired` fails — and stops that field's remaining chain — when the
data is falsy or a blank-after-strip string; `Length` checks the length of
the raw (untrimmed) data; `Email` delegates to a third-party syntax
checker, modelled here as an abstract predicate parameter; the
multi-checkbox field first checks every selected value against the
configured choices and then runs `DataRequired` (empty selection is
falsy). -/

/-- Per-field error structure: `form.errors`, one message list per field. -/
structure FormErrors where
  name : List String
  email : List String
  phone : List String
  zip_code : List String
  events_interested : List String
deriving DecidableEq

/-- Name field: `DataRequired`, then `Length(min=2, max=100)` on the raw
data. -/
def name_field_errors (nm : String) : List String :=
  if pyStrip nm = "" then ["Name is required"]
  else if nm.length < 2 || 100 < nm.length then
    ["Name must be between 2 and 100 characters"]
  else []

/-- Email field: `DataRequired`, then `Email` (abstract syntax predicate
`emailOk`) and `Length(max=120)`; the latter two both run and both can
report. -/
def email_field_errors (emailOk : String → Bool) (em : String) : List String :=
  if pyStrip em = "" then ["Email is required"]
  else
    (if emailOk em then [] else ["Please enter a valid email address"])
      ++ (if 120 < em.length then ["Email is too long"] else [])

/-- Phone field: only `Length(max=20)`; absence (empty string) is valid. -/
def phone_field_errors (ph : String) : List String :=
  if 20 < ph.length then ["Phone number is too long"] else []

/-- Zip code field: `DataRequired`, then `Length(min=5, max=10)` on the raw
data. -/
def zip_code_field_errors (z : String) : List String :=
  if pyStrip z = "" then ["Zip code is required"]
  else if z.length < 5 || 10 < z.length then ["Please enter a valid zip code"]
  else []

/-- Events field: the choice check of the multi-select field (every selected
label must be among the configured choices), then `DataRequired` (empty
selection is falsy). -/
def events_field_errors (catalog : List String) (evs : List String) : List String :=
  (if evs.all (fun v => catalog.contains v) then [] else ["Not a valid choice"])
    ++ (if evs.isEmpty then ["Please select at least one event"] else [])

/-- Validate the whole form: every field independently, all errors
collected (`form.validate_on_submit()`; CSRF is out of scope). -/
def validateForm (emailOk : String → Bool) (catalog : List String) (f : RawForm) :
    FormErrors :=
  { name := name_field_errors f.name
    email := email_field_errors emailOk f.email
    phone := phone_field_errors f.phone
    zip_code := zip_code_field_errors f.zip_code
    events_interested := events_field_errors catalog f.events_interested }

/-- True when any field reported an error (`form.validate()` is false). -/
def hasErrors (e : FormErrors) : Bool :=
  !(e.name.isEmpty && e.email.isEmpty && e.phone.isEmpty
      && e.zip_code.isEmpty && e.events_interested.isEmpty)

/-- Modelled from the spec: section 4.1 — the email syntax check performed
by the third-party validator behind `wtforms.validators.Email` is not part
of the repository; the pipeline theorems therefore take the predicate as a
parameter, and this simple concrete syntax check (one at-sign separating a
non-empty local part from a non-empty domain containing a dot) instantiates
it in concrete runs. -/
def emailBasicOk (e : String) : Bool :=
  match splitChars (fun c => c = '@') e.data with
  | [lp, dp] => !lp.isEmpty && !dp.isEmpty && dp.contains ('.')
  | _ => false

/-- The default event catalog (`get_event_options`, app.py lines 378-397,
without the environment override). -/
def default_events : List String :=
  ["World Cup Viewing Parties",
   "Skills Challenge & Games",
   "Photo Booth Experience",
   "Food Truck Festival",
   "Live Music & Entertainment",
   "Meet & Greet with Players",
   "FIFA Merchandise Shopping",
   "Kids Zone Activities"]

/-! ## The signup handler (app.py, lines 247-300) -/

/-- Operations issued against the Flask-Caching store, recorded as a trace
so that statements about which cache calls a run performs can be made. -/
inductive CacheOp where
  | get (k : String)
  | setMarker (k : String)
  | delete (k : String)
deriving DecidableEq

/-- The duplicate-check cache key: `f"email_check:{form.email.data}"`
(app.py line 258) — built from the raw submitted email field. -/
def dedupe_key_of_email (e : String) : String :=
  "email_check:" ++ e

/-- The cache key the handler computes for a submitted form. -/
def dedupe_key (f : RawForm) : String :=
  dedupe_key_of_email f.email

/-- Python truthiness of the stored phone column
(`if signup_data.phone:`). -/
def phoneTruthy : Option String → Bool
  | none => false
  | some p => !(p = "")

/-- The record the handler constructs (app.py lines 265-274): trimmed name,
trimmed lower-cased email, trimmed phone when the raw field is truthy else
NULL, trimmed zip, the selected events, the client metadata, SMS-tracking
defaults, and the creation timestamps. -/
def mkRecord (f : RawForm) (m : ClientMeta) (now : Nat) (idv : Nat) : SignupRecord :=
  { id := idv
    name := pyStrip f.name
    email := pyLower (pyStrip f.email)
    phone := if f.phone = "" then none else some (pyStrip f.phone)
    zip_code := pyStrip f.zip_code
    events_interested := f.events_interested
    ip_address := some m.ip
    user_agent := some m.user_agent
    source_url := m.referrer
    sms_sent := false
    sms_sent_at := none
    sms_delivery_status := none
    created_at := now
    updated_at := now }

/-- Outcome of a POST to the signup route. -/
inductive SignupResponse where
  | formWithErrors (errs : FormErrors)
  | duplicateNotice
  | errorPage
  | redirectSuccess (id : Nat)
deriving DecidableEq

/-- Translation of the `signup` handler (app.py lines 247-300).  Fault
injection: `insertFails` makes `db.session.commit()` of the insert raise;
`enqueueFails` makes `send_sms_async.delay` raise.  Either exception lands
in the handler's catch-all, which rolls back the session and renders the
error page; a rollback after a completed commit does not undo the committed
row.  Control flow mirrored step by step: validate; cache `get` of the
duplicate key, rejecting when the marker is present; construct and commit
the record; cache `setMarker` for one hour; enqueue the SMS job when the
stored phone is truthy; redirect to the success page.  The third component
of the result is the trace of cache operations the run performed. -/
def signup (emailOk : String → Bool) (catalog : List String) (f : RawForm)
    (m : ClientMeta) (insertFails enqueueFails : Bool) (now : Nat) (st : AppState) :
    SignupResponse × AppState × List CacheOp :=
  let errs := validateForm emailOk catalog f
  if hasErrors errs then
    (SignupResponse.formWithErrors errs, st, [])
  else if st.cache.contains (dedupe_key f) then
    (SignupResponse.duplicateNotice, st, [CacheOp.get (dedupe_key f)])
  else if insertFails then
    (SignupResponse.errorPage, st, [CacheOp.get (dedupe_key f)])
  else
    let r := mkRecord f m now st.next_id
    let st2 : AppState :=
      { db := st.db ++ [r]
        next_id := st.next_id + 1
        cache := st.cache ++ [dedupe_key f]
        queue := st.queue }
    if phoneTruthy r.phone then
      if enqueueFails then
        (SignupResponse.errorPage, st2,
         [CacheOp.get (dedupe_key f), CacheOp.setMarker (dedupe_key f)])
      else
        (SignupResponse.redirectSuccess r.id,
         { st2 with
             queue := st.queue
               ++ [{ signup_id := r.id, phone_number := r.phone.getD (""), name := r.name }] },
         [CacheOp.get (dedupe_key f), CacheOp.setMarker (dedupe_key f)])
    else
      (SignupResponse.redirectSuccess r.id, st2,
       [CacheOp.get (dedupe_key f), CacheOp.setMarker (dedupe_key f)])

/-! ## Notification worker (app.py, send_sms_async, lines 347-375) -/

/-- Update applied when `send_confirmation_sms` returned: mark the SMS
sent, stamp the send time, record delivery status; the ORM refreshes
`updated_at` on commit. -/
def sms_update_success (now : Nat) (r : SignupRecord) : SignupRecord :=
  { r with
      sms_sent := true
      sms_sent_at := some now
      sms_delivery_status := some ("sent")
      updated_at := now }

/-- Update applied on the exception path: record the terminal delivery
failure; `sms_sent` and `sms_sent_at` are left alone. -/
def sms_update_failure (now : Nat) (r : SignupRecord) : SignupRecord :=
  { r with
      sms_delivery_status := some ("failed")
      updated_at := now }

/-- Apply `u` to the record with primary key `jid`, leave every other
record unchanged: `Signup.query.get(signup_id)` followed by a mutation and
`db.session.commit()`, and the `if signup:` guard when no row matches. -/
def updAt (jid : Nat) (u : SignupRecord → SignupRecord) (r : SignupRecord) :
    SignupRecord :=
  if r.id = jid then u r else r

/-- Translation of the Celery task `send_sms_async(signup_id, phone_number,
name)` (app.py lines 347-375).  `send_confirmation_sms` first normalizes the
phone (raising on `clean_phone_number` failure) and then calls the SMS sink,
whose outcome is the `sinkOk` parameter; so the call returns normally
exactly when the phone cleans and the sink accepts.  On return: load the
record by id, and if present set the three sent fields and commit; a missing
record is logged and dropped.  On exception: load the record, if present
record delivery status failed and commit, then re-raise.  Result: the
updated store and whether the task raised. -/
def send_sms_async (signup_id : Nat) (phone_number _uname : String)
    (sinkOk : Bool) (now : Nat) (db : List SignupRecord) :
    List SignupRecord × Bool :=
  let callOk := !(exceptToOption (clean_phone_number phone_number) = none) && sinkOk
  if callOk then
    (db.map (updAt signup_id (sms_update_success now)), false)
  else
    (db.map (updAt signup_id (sms_update_failure now)), true)

/-! ## Metrics endpoint (app.py, metrics, lines 325-344) -/

/-- Outcome of a GET of the metrics route. -/
inductive MetricsResponse where
  | notFound
  | ok (total_signups today_signups : Nat) (timestamp : Nat)
deriving DecidableEq

/-- Midnight of the current UTC day for an epoch-seconds clock:
`datetime.utcnow().replace(hour=0, minute=0, second=0, microsecond=0)`. -/
def start_of_day (t : Nat) : Nat :=
  t - t % 86400

/-- Modelled from the spec: section 4.5 — the start of the current calendar
day, written independently as the greatest whole multiple of a day not
exceeding the clock; used to state the metrics claim and compared against
the handler's midnight computation. -/
def start_of_day_spec (t : Nat) : Nat :=
  86400 * (t / 86400)

/-- Translation of the `metrics` handler (app.py lines 325-344): 404 when
`METRICS_ENABLED` is off; otherwise `Signup.query.count()` and the count of
rows with `created_at >= ` midnight, from read-only queries — the handler
returns the store as it received it. -/
def metrics (metricsEnabled : Bool) (now : Nat) (db : List SignupRecord) :
    MetricsResponse × List SignupRecord :=
  if !metricsEnabled then
    (MetricsResponse.notFound, db)
  else
    let total_signups := db.length
    let recent_signups := (db.filter (fun r => start_of_day now ≤ r.created_at)).length
    (MetricsResponse.ok total_signups recent_signups now, db)

/-! ## Interleaving model of concurrent signup submissions

The handler touches the shared cache and database in three separate
steps — `cache.get(cache_key)` (app.py line 259), `db.session.commit()` of
the insert (line 277), `cache.set(cache_key, True, timeout=3600)` (line
280) — with no lock or conditional-set tying them together.  To settle the
race claim those three steps are taken as the atomic units of a concurrent
submission; validation and notification do not touch the duplicate marker
and are omitted.  Each in-flight request carries a program counter. -/

/-- Program counter of one in-flight submission. -/
inductive ReqPC where
  | atCacheGet
  | atDbInsert
  | atCacheSet
  | doneSuccess
  | doneDuplicate
deriving DecidableEq

/-- Shared state plus the program counters of the concurrent submissions;
`records` lists the emails of the committed rows in commit order. -/
structure RaceState where
  cache : List String
  records : List String
  procs : List ReqPC
deriving DecidableEq

/-- One atomic step of submission `i` (all submissions carry the same
email, the interesting case): the cache read decides between rejection and
proceeding; the insert commits a row; the cache write publishes the
marker. -/
def raceStep (email : String) (s : RaceState) (i : Nat) : RaceState :=
  match s.procs.get? i with
  | some ReqPC.atCacheGet =>
      if s.cache.contains (dedupe_key_of_email email) then
        { s with procs := s.procs.set i ReqPC.doneDuplicate }
      else
        { s with procs := s.procs.set i ReqPC.atDbInsert }
  | some ReqPC.atDbInsert =>
      { s with records := s.records ++ [email], procs := s.procs.set i ReqPC.atCacheSet }
  | some ReqPC.atCacheSet =>
      { s with cache := s.cache ++ [dedupe_key_of_email email]
               procs := s.procs.set i ReqPC.doneSuccess }
  | _ => s

/-- Run a schedule: at each tick the named submission takes its next atomic
step. -/
def raceRun (email : String) (sched : List Nat) (s : RaceState) : RaceState :=
  sched.foldl (raceStep email) s

/-- Initial state: empty cache and store, `n` submissions about to do their
duplicate check. -/
def raceInit (n : Nat) : RaceState :=
  { cache := [], records := [], procs := List.replicate n ReqPC.atCacheGet }

/-- How many of the concurrent submissions ended in the success response. -/
def successCount (s : RaceState) : Nat :=
  (s.procs.filter (fun p => p == ReqPC.doneSuccess)).length

/-- How many ended in the duplicate rejection. -/
def duplicateCount (s : RaceState) : Nat :=
  (s.procs.filter (fun p => p == ReqPC.doneDuplicate)).length

/-! ## Theorems -/

/-- C5: phone normalization strips non-digits, prepends the country code to
10-digit numbers, accepts 11-digit numbers already starting with it, and
fails otherwise; the listed concrete inputs normalize or fail as the claim
states.  The universal conjunct is the refinement against the
specification-level description `normalizePhoneSpec` (failure modelled as
`none`, the InvalidPhoneFormat outcome). -/
theorem clean_phone_number_matches_spec :
    (∀ s : String,
        exceptToOption (clean_phone_number s)
          = (normalizePhoneSpec s).map (fun d => "+" ++ d))
    ∧ clean_phone_number ("(555) 123-4567") = Except.ok ("+15551234567")
    ∧ clean_phone_number ("555-123-4567") = Except.ok ("+15551234567")
    ∧ clean_phone_number ("5551234567") = Except.ok ("+15551234567")
    ∧ clean_phone_number ("15551234567") = Except.ok ("+15551234567")
    ∧ clean_phone_number ("+15551234567") = Except.ok ("+15551234567")
    ∧ exceptToOption (clean_phone_number ("123")) = none
    ∧ exceptToOption (clean_phone_number ("12345678901234")) = none
    ∧ exceptToOption (clean_phone_number ("")) = none := by
  refine ⟨?_, rfl, rfl, rfl, rfl, rfl, rfl, rfl, rfl⟩
  intro s
  by_cases h : s = ""
  · subst h; decide
  · unfold clean_phone_number normalizePhoneSpec
    rw [if_neg h]
    by_cases h10 : (digitsOnly s).length = 10
    · simp [h10, exceptToOption]
    · by_cases h11 : ((digitsOnly s).length = 11 && firstCharIs (digitsOnly s) ('1')) = true
      · simp [h10, h11, exceptToOption]
      · simp [h10, h11, exceptToOption]

/-- C9: the metrics endpoint returns not-found when disabled; when enabled
it reports the exact number of stored records and the exact number created
at or after the start of the current calendar day (`start_of_day_spec`, the
greatest whole multiple of a day not exceeding the clock), and it returns
the store unchanged. -/
theorem metrics_counts_exact (metricsEnabled : Bool) (now : Nat)
    (db : List SignupRecord) :
    metrics metricsEnabled now db
      = (if metricsEnabled then
           MetricsResponse.ok db.length
             ((db.filter (fun r => start_of_day_spec now ≤ r.created_at)).length) now
         else MetricsResponse.notFound,
         db) := by
  have h : start_of_day now = start_of_day_spec now := by
    unfold start_of_day start_of_day_spec
    omega
  unfold metrics
  cases metricsEnabled <;> simp [h]

/-- Updating the record with key `jid` twice is one update when the first
update keeps the key and the second update discards what the first wrote. -/
theorem updAt_updAt (jid : Nat) (u1 u2 : SignupRecord → SignupRecord)
    (hid : ∀ r, (u1 r).id = r.id) (habs : ∀ r, u2 (u1 r) = u2 r)
    (r : SignupRecord) :
    updAt jid u2 (updAt jid u1 r) = updAt jid u2 r := by
  unfold updAt
  by_cases h : r.id = jid
  · simp [h, hid, habs]
  · simp [h]

/-- The success update keeps the primary key. -/
theorem sms_update_success_id (t : Nat) (r : SignupRecord) :
    (sms_update_success t r).id = r.id := rfl

/-- The failure update keeps the primary key. -/
theorem sms_update_failure_id (t : Nat) (r : SignupRecord) :
    (sms_update_failure t r).id = r.id := rfl

/-- A later success update overwrites everything an earlier one wrote. -/
theorem sms_update_success_success (t1 t2 : Nat) (r : SignupRecord) :
    sms_update_success t2 (sms_update_success t1 r) = sms_update_success t2 r := rfl

/-- A later failure update overwrites everything an earlier one wrote. -/
theorem sms_update_failure_failure (t1 t2 : Nat) (r : SignupRecord) :
    sms_update_failure t2 (sms_update_failure t1 r) = sms_update_failure t2 r := rfl

/-- C7 (amended): the worker is idempotent up to the send timestamp —
processing a job a second time (same job, same outcome) leaves the store
exactly as processing it once at the later time would: `smsSent` and
`smsDeliveryStatus` reach the same terminal values, while `smsSentAt` (and
the ORM's `updated_at`) hold the most recent processing time, so the two
runs coincide precisely when the timestamps do. -/
theorem send_sms_async_reprocess (jid : Nat) (ph nm : String) (sinkOk : Bool)
    (t1 t2 : Nat) (db : List SignupRecord) :
    (send_sms_async jid ph nm sinkOk t2 (send_sms_async jid ph nm sinkOk t1 db).1).1
      = (send_sms_async jid ph nm sinkOk t2 db).1 := by
  unfold send_sms_async
  cases hok : !(exceptToOption (clean_phone_number ph) = none) && sinkOk <;>
    simp only [hok, if_true, if_false, Bool.false_eq_true, List.map_map]
  · exact List.map_congr_left (fun r _ =>
      updAt_updAt jid (sms_update_failure t1) (sms_update_failure t2)
        (sms_update_failure_id t1) (sms_update_failure_failure t1 t2) r)
  · exact List.map_congr_left (fun r _ =>
      updAt_updAt jid (sms_update_success t1) (sms_update_success t2)
        (sms_update_success_id t1) (sms_update_success_success t1 t2) r)

/-- A concrete stored signup row used by the concrete worker runs. -/
def sampleRecord (idv : Nat) : SignupRecord :=
  { id := idv
    name := "John Doe"
    email := "john.doe@example.com"
    phone := some ("5551234567")
    zip_code := "64111"
    events_interested := ["Food Truck Festival"]
    ip_address := some ("10.0.0.1")
    user_agent := some ("UA")
    source_url := none
    sms_sent := false
    sms_sent_at := none
    sms_delivery_status := none
    created_at := 50
    updated_at := 50 }

/-- C7 counterexample: processing the same successful job twice, at times 1
and 2, does not leave the record in the same terminal notification state as
processing it once — `smsSentAt` is overwritten with the later processing
time (`some 2` against `some 1`), so the stores differ. -/
theorem send_sms_async_twice_differs_from_once :
    ((send_sms_async 0 ("5551234567") ("John Doe") true 1 [sampleRecord 0]).1.map
        (fun r => r.sms_sent_at) = [some 1])
    ∧ ((send_sms_async 0 ("5551234567") ("John Doe") true 2
          ((send_sms_async 0 ("5551234567") ("John Doe") true 1 [sampleRecord 0]).1)).1.map
        (fun r => r.sms_sent_at) = [some 2])
    ∧ ¬ ((send_sms_async 0 ("5551234567") ("John Doe") true 2
          ((send_sms_async 0 ("5551234567") ("John Doe") true 1 [sampleRecord 0]).1)).1
        = (send_sms_async 0 ("5551234567") ("John Doe") true 1 [sampleRecord 0]).1) := by
  refine ⟨rfl, rfl, ?_⟩
  decide


/-- Row-level facts about the success-path update: the primary key and
every substantive signup field survive, rows with other keys are untouched,
and the addressed row gets the three sent markers. -/
theorem worker_row_success (jid now : Nat) (r : SignupRecord) :
    (updAt jid (sms_update_success now) r).id = r.id
    ∧ (updAt jid (sms_update_success now) r).name = r.name
    ∧ (updAt jid (sms_update_success now) r).email = r.email
    ∧ (updAt jid (sms_update_success now) r).phone = r.phone
    ∧ (updAt jid (sms_update_success now) r).zip_code = r.zip_code
    ∧ (updAt jid (sms_update_success now) r).events_interested = r.events_interested
    ∧ (updAt jid (sms_update_success now) r).ip_address = r.ip_address
    ∧ (updAt jid (sms_update_success now) r).user_agent = r.user_agent
    ∧ (updAt jid (sms_update_success now) r).source_url = r.source_url
    ∧ (updAt jid (sms_update_success now) r).created_at = r.created_at
    ∧ (r.id ≠ jid → updAt jid (sms_update_success now) r = r)
    ∧ (r.id = jid →
        (updAt jid (sms_update_success now) r).sms_sent = true
        ∧ (updAt jid (sms_update_success now) r).sms_sent_at = some now
        ∧ (updAt jid (sms_update_success now) r).sms_delivery_status = some ("sent")) := by
  unfold updAt sms_update_success
  by_cases h : r.id = jid <;> simp [h]

/-- Row-level facts about the failure-path update: the primary key and
every substantive signup field survive, rows with other keys are untouched,
and the addressed row records the terminal delivery failure with `sms_sent`
and `sms_sent_at` untouched. -/
theorem worker_row_failure (jid now : Nat) (r : SignupRecord) :
    (updAt jid (sms_update_failure now) r).id = r.id
    ∧ (updAt jid (sms_update_failure now) r).name = r.name
    ∧ (updAt jid (sms_update_failure now) r).email = r.email
    ∧ (updAt jid (sms_update_failure now) r).phone = r.phone
    ∧ (updAt jid (sms_update_failure now) r).zip_code = r.zip_code
    ∧ (updAt jid (sms_update_failure now) r).events_interested = r.events_interested
    ∧ (updAt jid (sms_update_failure now) r).ip_address = r.ip_address
    ∧ (updAt jid (sms_update_failure now) r).user_agent = r.user_agent
    ∧ (updAt jid (sms_update_failure now) r).source_url = r.source_url
    ∧ (updAt jid (sms_update_failure now) r).created_at = r.created_at
    ∧ (updAt jid (sms_update_failure now) r).sms_sent = r.sms_sent
    ∧ (updAt jid (sms_update_failure now) r).sms_sent_at = r.sms_sent_at
    ∧ (r.id ≠ jid → updAt jid (sms_update_failure now) r = r)
    ∧ (r.id = jid →
        (updAt jid (sms_update_failure now) r).sms_delivery_status = some ("failed")) := by
  unfold updAt sms_update_failure
  by_cases h : r.id = jid <;> simp [h]

/-- C6: the worker task leaves the store's rows in place (same length, same
order); it raises exactly when the SMS call failed; when no row carries the
job's id the store is untouched (on the success path the job is logged and
dropped with no error); and for every row position: the substantive signup
fields are never mutated, rows with other ids are untouched, on success the
addressed row gets `smsSent=true`, `smsSentAt=now` and
`smsDeliveryStatus='sent'`, and on terminal failure it gets
`smsDeliveryStatus='failed'` with `smsSent` and `smsSentAt` untouched. -/
theorem send_sms_async_postconditions (jid : Nat) (ph nm : String)
    (sinkOk : Bool) (now : Nat) (db : List SignupRecord) :
    ((send_sms_async jid ph nm sinkOk now db).1.length = db.length)
    ∧ ((∀ r ∈ db, r.id ≠ jid) → (send_sms_async jid ph nm sinkOk now db).1 = db)
    ∧ ((send_sms_async jid ph nm sinkOk now db).2
        = !(!(exceptToOption (clean_phone_number ph) = none) && sinkOk))
    ∧ (∀ i (h1 : i < db.length), ∃ r2 : SignupRecord,
        (send_sms_async jid ph nm sinkOk now db).1[i]? = some r2
        ∧ r2.id = db[i].id
        ∧ r2.name = db[i].name
        ∧ r2.email = db[i].email
        ∧ r2.phone = db[i].phone
        ∧ r2.zip_code = db[i].zip_code
        ∧ r2.events_interested = db[i].events_interested
        ∧ r2.ip_address = db[i].ip_address
        ∧ r2.user_agent = db[i].user_agent
        ∧ r2.source_url = db[i].source_url
        ∧ r2.created_at = db[i].created_at
        ∧ (db[i].id ≠ jid → r2 = db[i])
        ∧ (db[i].id = jid →
            (!(exceptToOption (clean_phone_number ph) = none) && sinkOk) = true →
            r2.sms_sent = true ∧ r2.sms_sent_at = some now
              ∧ r2.sms_delivery_status = some ("sent"))
        ∧ (db[i].id = jid →
            (!(exceptToOption (clean_phone_number ph) = none) && sinkOk) = false →
            r2.sms_delivery_status = some ("failed")
              ∧ r2.sms_sent = db[i].sms_sent
              ∧ r2.sms_sent_at = db[i].sms_sent_at)) := by
  have huntouched : ∀ (u : SignupRecord → SignupRecord) (l : List SignupRecord),
      (∀ r ∈ l, r.id ≠ jid) → l.map (updAt jid u) = l := by
    intro u l hmiss
    induction l with
    | nil => rfl
    | cons a tl ih =>
      have ha := hmiss a (by simp)
      simp only [List.map_cons]
      rw [ih (fun r hr => hmiss r (by simp [hr]))]
      unfold updAt
      simp [ha]
  refine ⟨?_, ?_, ?_, ?_⟩
  · unfold send_sms_async
    cases hok : !(exceptToOption (clean_phone_number ph) = none) && sinkOk <;> simp
  · intro hmiss
    unfold send_sms_async
    cases hok : !(exceptToOption (clean_phone_number ph) = none) && sinkOk <;>
      simp [huntouched _ db hmiss]
  · unfold send_sms_async
    cases hok : !(exceptToOption (clean_phone_number ph) = none) && sinkOk <;> simp
  · by_cases hok : (!(exceptToOption (clean_phone_number ph) = none) && sinkOk) = true
    · have hx : (send_sms_async jid ph nm sinkOk now db).1
          = db.map (updAt jid (sms_update_success now)) := by
        unfold send_sms_async
        simp [hok]
      intro i h1
      obtain ⟨e1, e2, e3, e4, e5, e6, e7, e8, e9, e10, e11, e12⟩ :=
        worker_row_success jid now db[i]
      refine ⟨updAt jid (sms_update_success now) db[i], ?_,
        e1, e2, e3, e4, e5, e6, e7, e8, e9, e10, e11, ?_, ?_⟩
      · rw [hx, List.getElem?_map, List.getElem?_eq_getElem h1]
        rfl
      · intro hid _
        exact e12 hid
      · intro _ habs
        rw [hok] at habs
        exact absurd habs (by decide)
    · rw [Bool.not_eq_true] at hok
      have hx : (send_sms_async jid ph nm sinkOk now db).1
          = db.map (updAt jid (sms_update_failure now)) := by
        unfold send_sms_async
        simp [hok]
      intro i h1
      obtain ⟨e1, e2, e3, e4, e5, e6, e7, e8, e9, e10, e11, e12, e13, e14⟩ :=
        worker_row_failure jid now db[i]
      refine ⟨updAt jid (sms_update_failure now) db[i], ?_,
        e1, e2, e3, e4, e5, e6, e7, e8, e9, e10, e13, ?_, ?_⟩
      · rw [hx, List.getElem?_map, List.getElem?_eq_getElem h1]
        rfl
      · intro _ habs
        rw [hok] at habs
        exact absurd habs (by decide)
      · intro hid _
        exact ⟨e14 hid, e11, e12⟩

/-- Witness for the worker postconditions at a concrete run: one stored
row, a cleanable phone, an accepting sink — afterwards the row is marked
sent at time 7 with its substantive email untouched. -/
theorem send_sms_async_postconditions_witness :
    ((send_sms_async 0 ("5551234567") ("John Doe") true 7 [sampleRecord 0]).1[0]?.map
        (fun r => (r.sms_sent, r.sms_sent_at, r.sms_delivery_status, r.email)))
      = some (true, some 7, some ("sent"), "john.doe@example.com") := by
  obtain ⟨r2, hsome, hid, hname, hemail, hphone, hzip, hev, hip, hua, hsrc, hcr,
      hother, hsucc, hfail⟩ :=
    (send_sms_async_postconditions 0 ("5551234567") ("John Doe") true 7
        [sampleRecord 0]).2.2.2 0 (by decide)
  obtain ⟨hs1, hs2, hs3⟩ := hsucc rfl (by decide)
  rw [hsome]
  simp [hs1, hs2, hs3, hemail, sampleRecord]

/-- C1 counterexample: the duplicate check is a plain `cache.get` followed
much later by a plain `cache.set`, not one atomic conditional-set; with two
concurrent submissions of the same email the alternating interleaving
(both read the absent marker, then both insert) ends with both submissions
successful and two committed records — not exactly one success with one
duplicate rejection. -/
theorem concurrent_same_email_two_successes :
    successCount (raceRun ("john@ex.com") [0, 1, 0, 1, 0, 1] (raceInit 2)) = 2
    ∧ duplicateCount (raceRun ("john@ex.com") [0, 1, 0, 1, 0, 1] (raceInit 2)) = 0
    ∧ (raceRun ("john@ex.com") [0, 1, 0, 1, 0, 1] (raceInit 2)).records.length = 2
    ∧ ¬ successCount (raceRun ("john@ex.com") [0, 1, 0, 1, 0, 1] (raceInit 2)) = 1 := by
  refine ⟨rfl, rfl, rfl, ?_⟩
  decide

/-- C1 (amended): the dedupe check and the marker write are two separate
cache operations around the insert, so mutual exclusion holds only for
schedules in which one submission completes before the other reads: the
fully sequential schedule of two same-email submissions yields exactly one
success, one duplicate rejection and one record, while the alternating
schedule yields two successes and two records. -/
theorem race_outcome_depends_on_schedule :
    (raceRun ("john@ex.com") [0, 0, 0, 1] (raceInit 2)
      = { cache := [dedupe_key_of_email ("john@ex.com")]
          records := ["john@ex.com"]
          procs := [ReqPC.doneSuccess, ReqPC.doneDuplicate] })
    ∧ successCount (raceRun ("john@ex.com") [0, 0, 0, 1] (raceInit 2)) = 1
    ∧ duplicateCount (raceRun ("john@ex.com") [0, 0, 0, 1] (raceInit 2)) = 1
    ∧ successCount (raceRun ("john@ex.com") [0, 1, 0, 1, 0, 1] (raceInit 2)) = 2
    ∧ (raceRun ("john@ex.com") [0, 1, 0, 1, 0, 1] (raceInit 2)).records
        = ["john@ex.com", "john@ex.com"] := by
  refine ⟨?_, rfl, rfl, rfl, rfl⟩
  decide

/-- Concrete client metadata for the concrete handler runs. -/
def cexMeta : ClientMeta :=
  { ip := "10.0.0.1", user_agent := "UA", referrer := none }

/-- Empty initial application state: no rows, no markers, no queued jobs. -/
def emptyState : AppState :=
  { db := [], next_id := 0, cache := [], queue := [] }

/-- A valid form whose email carries upper-case letters. -/
def upperCaseEmailForm : RawForm :=
  { name := "John Doe"
    email := "John.Doe@Example.com"
    phone := ""
    zip_code := "64111"
    events_interested := ["Food Truck Festival"] }

/-- The same submission with the email already lower-cased. -/
def lowerCaseEmailForm : RawForm :=
  { name := "John Doe"
    email := "john.doe@example.com"
    phone := ""
    zip_code := "64111"
    events_interested := ["Food Truck Festival"] }

/-- A valid form with a phone number present. -/
def phoneForm : RawForm :=
  { name := "Jane Roe"
    email := "jane@ex.co"
    phone := "5551234567"
    zip_code := "64111"
    events_interested := ["Kids Zone Activities"] }

/-- C2 counterexample: the dedupe key is built from the raw submitted email,
not the normalized one.  Submitting `John.Doe@Example.com` and then
`john.doe@example.com` — the same normalized email — both succeed: the
second is not rejected as a duplicate even though the marker left by the
first submission guards that very normalized email, and two records with
identical stored (normalized) emails are created. -/
theorem dedupe_key_uses_raw_email_cex :
    ((signup emailBasicOk default_events upperCaseEmailForm cexMeta false false 100
        emptyState).1 = SignupResponse.redirectSuccess 0)
    ∧ ((signup emailBasicOk default_events lowerCaseEmailForm cexMeta false false 101
          (signup emailBasicOk default_events upperCaseEmailForm cexMeta false false 100
            emptyState).2.1).1 = SignupResponse.redirectSuccess 1)
    ∧ ¬ ((signup emailBasicOk default_events lowerCaseEmailForm cexMeta false false 101
          (signup emailBasicOk default_events upperCaseEmailForm cexMeta false false 100
            emptyState).2.1).1 = SignupResponse.duplicateNotice)
    ∧ ((signup emailBasicOk default_events lowerCaseEmailForm cexMeta false false 101
          (signup emailBasicOk default_events upperCaseEmailForm cexMeta false false 100
            emptyState).2.1).2.1.db.map (fun r => r.email)
        = ["john.doe@example.com", "john.doe@example.com"])
    ∧ ¬ (dedupe_key upperCaseEmailForm = dedupe_key lowerCaseEmailForm) := by
  refine ⟨rfl, rfl, ?_, rfl, ?_⟩ <;> decide

/-- C2 (amended): the dedupe key is the raw submitted email (prefixed with
the cache namespace), not the normalized one; whenever a marker for that
raw key is present in the cache, a validated submission is rejected with
the duplicate notice at once, the state is returned unchanged — no record
is created, nothing enqueued, no marker touched — and the run's only cache
operation is the read. -/
theorem signup_duplicate_marker_rejects (emailOk : String → Bool)
    (catalog : List String) (f : RawForm) (m : ClientMeta)
    (insertFails enqueueFails : Bool) (now : Nat) (st : AppState)
    (hv : hasErrors (validateForm emailOk catalog f) = false)
    (hdup : st.cache.contains (dedupe_key f) = true) :
    signup emailOk catalog f m insertFails enqueueFails now st
      = (SignupResponse.duplicateNotice, st, [CacheOp.get (dedupe_key f)]) := by
  unfold signup
  simp only [hv, Bool.false_eq_true, if_false, hdup, if_true]

/-- Witness for the duplicate rejection: a marker for the raw email of the
concrete form is present, so the concrete run returns the duplicate notice
and an unchanged state. -/
theorem signup_duplicate_marker_rejects_witness :
    signup emailBasicOk default_events lowerCaseEmailForm cexMeta false false 100
        { db := [], next_id := 0, cache := ["email_check:john.doe@example.com"], queue := [] }
      = (SignupResponse.duplicateNotice,
         { db := [], next_id := 0, cache := ["email_check:john.doe@example.com"], queue := [] },
         [CacheOp.get ("email_check:john.doe@example.com")]) :=
  signup_duplicate_marker_rejects emailBasicOk default_events lowerCaseEmailForm cexMeta
    false false 100
    { db := [], next_id := 0, cache := ["email_check:john.doe@example.com"], queue := [] }
    (by decide) (by decide)

/-- True exactly for a cache-delete operation. -/
def isDeleteOp : CacheOp → Bool
  | CacheOp.delete _ => true
  | _ => false

/-- C3 counterexample: in a run whose insert fails, the handler performs no
compensating release of the dedupe marker — its whole cache trace is the
single read of the duplicate key, with no delete operation (there is no
marker to release: the marker is only written after a successful commit).
The error page is returned and the state is unchanged. -/
theorem storage_failure_performs_no_release_cex :
    ((signup emailBasicOk default_events phoneForm cexMeta true false 100 emptyState).2.2
        = [CacheOp.get ("email_check:jane@ex.co")])
    ∧ ((signup emailBasicOk default_events phoneForm cexMeta true false 100
          emptyState).2.2.all (fun op => !(isDeleteOp op)) = true)
    ∧ ((signup emailBasicOk default_events phoneForm cexMeta true false 100 emptyState).1
        = SignupResponse.errorPage)
    ∧ ((signup emailBasicOk default_events phoneForm cexMeta true false 100 emptyState).2.1
        = emptyState) := by
  refine ⟨rfl, rfl, rfl, ?_⟩
  decide

/-- C3 (amended): when the insert of a validated, non-duplicate submission
fails, the handler returns the error page and the state unchanged: no
record exists, the cache holds no marker for the email — not because a
compensating release ran (the trace is the single read, no delete), but
because the marker is only ever set after a successful commit — and the
client may retry. -/
theorem signup_storage_failure (emailOk : String → Bool) (catalog : List String)
    (f : RawForm) (m : ClientMeta) (enqueueFails : Bool) (now : Nat) (st : AppState)
    (hv : hasErrors (validateForm emailOk catalog f) = false)
    (hnd : st.cache.contains (dedupe_key f) = false) :
    signup emailOk catalog f m true enqueueFails now st
      = (SignupResponse.errorPage, st, [CacheOp.get (dedupe_key f)]) := by
  unfold signup
  simp only [hv, Bool.false_eq_true, if_false, hnd, if_true]

/-- Witness for the storage-failure path: a concrete validated submission
against an empty cache with a failing insert returns the error page and
leaves the empty state intact. -/
theorem signup_storage_failure_witness :
    signup emailBasicOk default_events phoneForm cexMeta true true 100 emptyState
      = (SignupResponse.errorPage, emptyState, [CacheOp.get ("email_check:jane@ex.co")]) :=
  signup_storage_failure emailBasicOk default_events phoneForm cexMeta true 100 emptyState
    (by decide) (by decide)

/-- C4 counterexample: a validated submission with a phone whose record
commit succeeds but whose enqueue raises does not give the client the
success outcome — the catch-all handler returns the error page (the
committed record and the marker do survive, and nothing is enqueued). -/
theorem enqueue_failure_fails_response_cex :
    ((signup emailBasicOk default_events phoneForm cexMeta false true 100 emptyState).1
        = SignupResponse.errorPage)
    ∧ ¬ ((signup emailBasicOk default_events phoneForm cexMeta false true 100 emptyState).1
        = SignupResponse.redirectSuccess 0)
    ∧ ((signup emailBasicOk default_events phoneForm cexMeta false true 100
          emptyState).2.1.db.length = 1)
    ∧ ((signup emailBasicOk default_events phoneForm cexMeta false true 100
          emptyState).2.1.queue = []) := by
  refine ⟨rfl, ?_, rfl, rfl⟩
  decide

/-- C4 (amended): when the insert of a validated, non-duplicate submission
with a truthy phone succeeds but the enqueue of the notification job fails,
the committed record persists (the post-commit rollback cannot undo it) and
the dedupe marker stays set, nothing is enqueued — but the exception lands
in the handler's catch-all, so the client receives the generic error page,
not the success redirect; the failure is only logged. -/
theorem signup_enqueue_failure (emailOk : String → Bool) (catalog : List String)
    (f : RawForm) (m : ClientMeta) (now : Nat) (st : AppState)
    (hv : hasErrors (validateForm emailOk catalog f) = false)
    (hnd : st.cache.contains (dedupe_key f) = false)
    (hp : phoneTruthy (mkRecord f m now st.next_id).phone = true) :
    signup emailOk catalog f m false true now st
      = (SignupResponse.errorPage,
         { db := st.db ++ [mkRecord f m now st.next_id]
           next_id := st.next_id + 1
           cache := st.cache ++ [dedupe_key f]
           queue := st.queue },
         [CacheOp.get (dedupe_key f), CacheOp.setMarker (dedupe_key f)]) := by
  unfold signup
  simp only [hv, Bool.false_eq_true, if_false, hnd, hp, if_true]

/-- Witness for the enqueue-failure path at a concrete input: the record is
committed and the marker set, yet the response is the error page. -/
theorem signup_enqueue_failure_witness :
    signup emailBasicOk default_events phoneForm cexMeta false true 100 emptyState
      = (SignupResponse.errorPage,
         { db := [mkRecord phoneForm cexMeta 100 0]
           next_id := 1
           cache := ["email_check:jane@ex.co"]
           queue := [] },
         [CacheOp.get ("email_check:jane@ex.co"),
          CacheOp.setMarker ("email_check:jane@ex.co")]) :=
  signup_enqueue_failure emailBasicOk default_events phoneForm cexMeta 100 emptyState
    (by decide) (by decide) (by decide)

/-- C10: a validated, non-duplicate submission whose raw phone field is
empty (the falsy value an absent optional field produces) stores the
record's phone as NULL — not the empty string —, succeeds with a redirect
to the new signup id, and enqueues no notification job. -/
theorem signup_empty_phone (emailOk : String → Bool) (catalog : List String)
    (f : RawForm) (m : ClientMeta) (enqueueFails : Bool) (now : Nat) (st : AppState)
    (hv : hasErrors (validateForm emailOk catalog f) = false)
    (hnd : st.cache.contains (dedupe_key f) = false)
    (hp : f.phone = "") :
    signup emailOk catalog f m false enqueueFails now st
      = (SignupResponse.redirectSuccess st.next_id,
         { db := st.db ++ [mkRecord f m now st.next_id]
           next_id := st.next_id + 1
           cache := st.cache ++ [dedupe_key f]
           queue := st.queue },
         [CacheOp.get (dedupe_key f), CacheOp.setMarker (dedupe_key f)])
    ∧ (mkRecord f m now st.next_id).phone = none := by
  have hrec : (mkRecord f m now st.next_id).phone = none := by
    unfold mkRecord
    simp [hp]
  have hpt : phoneTruthy (mkRecord f m now st.next_id).phone = false := by
    rw [hrec]
    rfl
  refine ⟨?_, hrec⟩
  unfold signup
  simp only [hv, Bool.false_eq_true, if_false, hnd, hpt, if_true]
  rfl

/-- Witness for the empty-phone path at a concrete input: phone stored as
NULL, success redirect to id 0, empty queue. -/
theorem signup_empty_phone_witness :
    (signup emailBasicOk default_events lowerCaseEmailForm cexMeta false false 100 emptyState
      = (SignupResponse.redirectSuccess 0,
         { db := [mkRecord lowerCaseEmailForm cexMeta 100 0]
           next_id := 1
           cache := ["email_check:john.doe@example.com"]
           queue := [] },
         [CacheOp.get ("email_check:john.doe@example.com"),
          CacheOp.setMarker ("email_check:john.doe@example.com")]))
    ∧ (mkRecord lowerCaseEmailForm cexMeta 100 0).phone = none :=
  signup_empty_phone emailBasicOk default_events lowerCaseEmailForm cexMeta false 100
    emptyState (by decide) (by decide) (by decide)

/-- The name field accepts exactly the non-blank names whose raw length
lies in [2, 100]. -/
theorem name_field_errors_empty_iff (nm : String) :
    name_field_errors nm = []
      ↔ (¬ pyStrip nm = "" ∧ 2 ≤ nm.length ∧ nm.length ≤ 100) := by
  unfold name_field_errors
  by_cases h1 : pyStrip nm = ""
  · simp [h1]
  · by_cases h2 : (nm.length < 2 || 100 < nm.length) = true
    · have h2x : nm.length < 2 ∨ 100 < nm.length := by simpa using h2
      simp only [h1, Bool.false_eq_true, if_false, h2, if_true]
      simp
      omega
    · rw [Bool.not_eq_true] at h2
      have h2x : ¬ (nm.length < 2 ∨ 100 < nm.length) := by
        simpa using h2
      simp only [h1, Bool.false_eq_true, if_false, h2]
      simp [h1]
      omega

/-- The email field accepts exactly the non-blank addresses the syntax
predicate accepts whose raw length is at most 120. -/
theorem email_field_errors_empty_iff (emailOk : String → Bool) (em : String) :
    email_field_errors emailOk em = []
      ↔ (¬ pyStrip em = "" ∧ emailOk em = true ∧ em.length ≤ 120) := by
  unfold email_field_errors
  by_cases h1 : pyStrip em = ""
  · simp [h1]
  · by_cases h2 : emailOk em <;> by_cases h3 : (120 < em.length) = true <;>
      simp [h1, h2, h3]

/-- The phone field accepts exactly the values of raw length at most 20. -/
theorem phone_field_errors_empty_iff (ph : String) :
    phone_field_errors ph = [] ↔ ph.length ≤ 20 := by
  unfold phone_field_errors
  by_cases h : (20 < ph.length) = true <;> simp [h]

/-- The zip field accepts exactly the non-blank values whose raw length
lies in [5, 10]. -/
theorem zip_code_field_errors_empty_iff (z : String) :
    zip_code_field_errors z = []
      ↔ (¬ pyStrip z = "" ∧ 5 ≤ z.length ∧ z.length ≤ 10) := by
  unfold zip_code_field_errors
  by_cases h1 : pyStrip z = ""
  · simp [h1]
  · by_cases h2 : (z.length < 5 || 10 < z.length) = true
    · have h2x : z.length < 5 ∨ 10 < z.length := by simpa using h2
      simp only [h1, Bool.false_eq_true, if_false, h2, if_true]
      simp
      omega
    · rw [Bool.not_eq_true] at h2
      have h2x : ¬ (z.length < 5 ∨ 10 < z.length) := by
        simpa using h2
      simp only [h1, Bool.false_eq_true, if_false, h2]
      simp [h1]
      omega

/-- The events field accepts exactly the non-empty selections all of whose
labels are catalog members. -/
theorem events_field_errors_empty_iff (catalog : List String) (evs : List String) :
    events_field_errors catalog evs = []
      ↔ (¬ evs = [] ∧ ∀ v ∈ evs, catalog.contains v = true) := by
  unfold events_field_errors
  by_cases h1 : evs.all (fun v => catalog.contains v) = true <;>
    by_cases h2 : evs.isEmpty = true <;>
      simp_all [List.all_eq_true, List.isEmpty_iff]

/-- C8 (amended): the per-field rules as the handler actually enforces
them — required-ness is checked on the trimmed value, lengths on the raw
(untrimmed) value — collected independently per field; and whenever any
field reports, the handler re-renders the form with exactly those keyed
errors and touches neither the store, the cache nor the queue. -/
theorem validation_keyed_and_blocking (emailOk : String → Bool)
    (catalog : List String) (f : RawForm) (m : ClientMeta)
    (insertFails enqueueFails : Bool) (now : Nat) (st : AppState) :
    ((validateForm emailOk catalog f).name = []
        ↔ (¬ pyStrip f.name = "" ∧ 2 ≤ f.name.length ∧ f.name.length ≤ 100))
    ∧ ((validateForm emailOk catalog f).email = []
        ↔ (¬ pyStrip f.email = "" ∧ emailOk f.email = true ∧ f.email.length ≤ 120))
    ∧ ((validateForm emailOk catalog f).phone = [] ↔ f.phone.length ≤ 20)
    ∧ ((validateForm emailOk catalog f).zip_code = []
        ↔ (¬ pyStrip f.zip_code = "" ∧ 5 ≤ f.zip_code.length ∧ f.zip_code.length ≤ 10))
    ∧ ((validateForm emailOk catalog f).events_interested = []
        ↔ (¬ f.events_interested = []
            ∧ ∀ v ∈ f.events_interested, catalog.contains v = true))
    ∧ (hasErrors (validateForm emailOk catalog f) = true →
        signup emailOk catalog f m insertFails enqueueFails now st
          = (SignupResponse.formWithErrors (validateForm emailOk catalog f), st, [])) := by
  refine ⟨name_field_errors_empty_iff f.name,
    email_field_errors_empty_iff emailOk f.email,
    phone_field_errors_empty_iff f.phone,
    zip_code_field_errors_empty_iff f.zip_code,
    events_field_errors_empty_iff catalog f.events_interested, ?_⟩
  intro h
  unfold signup
  simp only [h, if_true]

/-- A submission whose raw name is in range but whose trimmed name is a
single character; every other field is valid. -/
def paddedNameForm : RawForm :=
  { name := " a "
    email := "jd@example.com"
    phone := ""
    zip_code := "64111"
    events_interested := ["Food Truck Festival"] }

/-- C8 counterexample: the claimed name rule — trimmed length in
[2, 100] — is not what the handler enforces.  The input name is a single
letter between spaces: its trimmed length is 1, violating exactly the
claimed name rule, yet validation reports no failure at all (the raw
length 3 passes the length validator) and a record is created, with the
stored, trimmed name one character long. -/
theorem padded_name_accepted_cex :
    ((pyStrip (" a ")).length = 1)
    ∧ (validateForm emailBasicOk default_events paddedNameForm
        = { name := [], email := [], phone := [], zip_code := [], events_interested := [] })
    ∧ (hasErrors (validateForm emailBasicOk default_events paddedNameForm) = false)
    ∧ ((signup emailBasicOk default_events paddedNameForm cexMeta false false 100
          emptyState).1 = SignupResponse.redirectSuccess 0)
    ∧ ((signup emailBasicOk default_events paddedNameForm cexMeta false false 100
          emptyState).2.1.db.map (fun r => r.name) = ["a"]) := by
  refine ⟨rfl, rfl, rfl, rfl, rfl⟩

/-- A submission with a blank name and every other field valid. -/
def blankNameForm : RawForm :=
  { name := ""
    email := "jd@example.com"
    phone := ""
    zip_code := "64111"
    events_interested := ["Food Truck Festival"] }

/-- Witness for the validation theorem: a blank name makes the form fail,
and the concrete run re-renders the form with the keyed errors and an
untouched state. -/
theorem validation_keyed_and_blocking_witness :
    signup emailBasicOk default_events blankNameForm cexMeta false false 100 emptyState
      = (SignupResponse.formWithErrors
          (validateForm emailBasicOk default_events blankNameForm), emptyState, []) :=
  (validation_keyed_and_blocking emailBasicOk default_events blankNameForm cexMeta
      false false 100 emptyState).2.2.2.2.2 (by decide)
